import Mathlib

/-
Verification of the wallet risk-scoring system
(src/compound_data_fetcher.py, src/risk_scorer.py, src/main.py).

Numbers are modelled by the rationals; Python dictionaries whose keys may be
absent are modelled by structures of `Option` fields, and `dict.get k default`
by `Option.getD`.  Python exceptions (here: ZeroDivisionError) are modelled by
`Except String`.  `int(x)` (truncation toward zero) is modelled by `pyInt`.
-/

namespace WalletScores

/-- A raw transaction record as consumed by
`CompoundDataFetcher.analyze_transaction_patterns`
(fields `value`, `isError`, `to`, `from`, `timeStamp`; every field may be
missing).  `timeStamp := none` models a missing or falsy timestamp, which the
source filters out before parsing; `timeStamp := some n` a parseable one. -/
structure Tx where
  value : Option ℚ
  isError : Option String
  toAddr : Option String
  fromAddr : Option String
  timeStamp : Option Int
deriving DecidableEq

/-- The metrics dictionary produced by `analyze_transaction_patterns` and
consumed by the scorer.  Every field is optional: the empty-input branch of the
source returns a dictionary without the keys `failed_transaction_rate` and
`total_value_eth`, and the scorer reads every key through `dict.get`. -/
structure TransactionMetrics where
  total_transactions : Option ℚ
  avg_transaction_value : Option ℚ
  transaction_frequency : Option ℚ
  failed_transactions : Option ℚ
  failed_transaction_rate : Option ℚ
  unique_counterparties : Option ℚ
  time_span_days : Option ℚ
  total_value_eth : Option ℚ
deriving DecidableEq

/-- Protocol-usage dictionary: the scorer reads only `compound_count`. -/
structure CompoundData where
  compound_count : Option ℚ
deriving DecidableEq

/-- Balance dictionary: the scorer reads only `current_balance_eth`. -/
structure BalanceData where
  current_balance_eth : Option ℚ
deriving DecidableEq

/-- `CompoundDataFetcher.analyze_transaction_patterns`
(src/compound_data_fetcher.py lines 160-202).  The empty-input branch returns
a dictionary with six keys only; the main branch returns all eight. -/
def analyze_transaction_patterns (transactions : List Tx) : TransactionMetrics :=
  if transactions.isEmpty then
    { total_transactions := some 0
      avg_transaction_value := some 0
      transaction_frequency := some 0
      failed_transactions := some 0
      failed_transaction_rate := none
      unique_counterparties := some 0
      time_span_days := some 0
      total_value_eth := none }
  else
    let total_txs : ℚ := transactions.length
    let total_value : ℚ := (transactions.map (fun tx => tx.value.getD 0)).sum
    let avg_value : ℚ := if total_txs > 0 then total_value / total_txs else 0
    let failed_txs : ℚ := (transactions.filter (fun tx => tx.isError = some "1")).length
    let counterparties : Finset String :=
      transactions.foldl
        (fun s tx => insert (tx.toAddr.getD "") (insert (tx.fromAddr.getD "") s)) ∅
    let timestamps : List Int := transactions.filterMap (fun tx => tx.timeStamp)
    let span_freq : ℚ × ℚ :=
      match timestamps with
      | [] => (0, 0)
      | t :: ts =>
        let mx : Int := ts.foldl max t
        let mn : Int := ts.foldl min t
        let time_span : ℚ := ((mx - mn : Int) : ℚ) / (24 * 3600)
        (time_span, total_txs / max time_span 1)
    { total_transactions := some total_txs
      avg_transaction_value := some avg_value
      transaction_frequency := some span_freq.2
      failed_transactions := some failed_txs
      failed_transaction_rate := some (if total_txs > 0 then failed_txs / total_txs else 0)
      unique_counterparties := some (counterparties.card : ℚ)
      time_span_days := some span_freq.1
      total_value_eth := some (total_value / 10 ^ 18) }

/-! The seven factor weights of `WalletRiskScorer.__init__`
(src/risk_scorer.py lines 11-19). -/

def weight_transaction_volume : ℚ := 0.20

def weight_transaction_frequency : ℚ := 0.15

def weight_protocol_experience : ℚ := 0.25

def weight_balance_stability : ℚ := 0.15

def weight_failure_rate : ℚ := 0.10

def weight_counterparty_diversity : ℚ := 0.10

def weight_recent_activity : ℚ := 0.05

/-- `WalletRiskScorer.calculate_transaction_volume_score` (lines 31-47). -/
def calculate_transaction_volume_score (metrics : TransactionMetrics) : ℚ :=
  let volume_eth := metrics.total_value_eth.getD 0
  if volume_eth ≥ 1000 then 0.1
  else if volume_eth ≥ 100 then 0.2
  else if volume_eth ≥ 10 then 0.4
  else if volume_eth ≥ 1 then 0.6
  else 0.9

/-- `WalletRiskScorer.calculate_frequency_score` (lines 49-61). -/
def calculate_frequency_score (metrics : TransactionMetrics) : ℚ :=
  let frequency := metrics.transaction_frequency.getD 0
  if frequency ≥ 1.0 then 0.1
  else if frequency ≥ 0.5 then 0.2
  else if frequency ≥ 0.1 then 0.4
  else if frequency > 0 then 0.7
  else 1.0

/-- `WalletRiskScorer.calculate_protocol_experience_score` (lines 63-77). -/
def calculate_protocol_experience_score (compound_data : CompoundData) : ℚ :=
  let compound_count := compound_data.compound_count.getD 0
  if compound_count ≥ 50 then 0.05
  else if compound_count ≥ 20 then 0.15
  else if compound_count ≥ 10 then 0.3
  else if compound_count ≥ 5 then 0.5
  else if compound_count > 0 then 0.7
  else 0.95

/-- `WalletRiskScorer.calculate_balance_stability_score` (lines 79-104). -/
def calculate_balance_stability_score (balance_data : BalanceData)
    (metrics : TransactionMetrics) : ℚ :=
  let current_balance := balance_data.current_balance_eth.getD 0
  let volume_eth := metrics.total_value_eth.getD 0
  let balance_to_volume_ratio := current_balance / max volume_eth 0.001
  let base_score : ℚ :=
    if current_balance ≥ 100 then 0.05
    else if current_balance ≥ 10 then 0.15
    else if current_balance ≥ 1 then 0.3
    else if current_balance ≥ 0.1 then 0.6
    else 0.9
  let adjustment : ℚ :=
    if balance_to_volume_ratio > 0.1 then -0.1
    else if balance_to_volume_ratio < 0.01 then 0.2
    else 0
  max 0 (min 1 (base_score + adjustment))

/-- `WalletRiskScorer.calculate_failure_rate_score` (lines 106-118). -/
def calculate_failure_rate_score (metrics : TransactionMetrics) : ℚ :=
  let failure_rate := metrics.failed_transaction_rate.getD 0
  if failure_rate = 0 then 0.0
  else if failure_rate ≤ 0.02 then 0.1
  else if failure_rate ≤ 0.05 then 0.3
  else if failure_rate ≤ 0.1 then 0.6
  else 1.0

/-- `WalletRiskScorer.calculate_counterparty_diversity_score` (lines 120-137).
The source computes `diversity_ratio = unique_counterparties /
total_transactions` and never uses it; in Python this raises
ZeroDivisionError whenever the key `total_transactions` is present with value
0 (the `dict.get` default of 1 protects only a missing key), so the function
is modelled in `Except String`. -/
def calculate_counterparty_diversity_score (metrics : TransactionMetrics) :
    Except String ℚ :=
  let unique_counterparties := metrics.unique_counterparties.getD 0
  let total_transactions := metrics.total_transactions.getD 1
  if total_transactions = 0 then Except.error "division by zero"
  else
    let _diversity_ratio := unique_counterparties / total_transactions
    Except.ok <|
      if unique_counterparties ≥ 100 then 0.05
      else if unique_counterparties ≥ 50 then 0.15
      else if unique_counterparties ≥ 20 then 0.3
      else if unique_counterparties ≥ 10 then 0.5
      else if unique_counterparties > 0 then 0.8
      else 1.0

/-- `WalletRiskScorer.calculate_recent_activity_score` (lines 139-151). -/
def calculate_recent_activity_score (metrics : TransactionMetrics) : ℚ :=
  let time_span_days := metrics.time_span_days.getD 0
  if time_span_days ≤ 30 then 0.1
  else if time_span_days ≤ 90 then 0.3
  else if time_span_days ≤ 180 then 0.5
  else if time_span_days ≤ 365 then 0.7
  else 1.0

/-- The seven named component scores of a `RiskAssessment`. -/
structure ComponentScores where
  transaction_volume : ℚ
  transaction_frequency : ℚ
  protocol_experience : ℚ
  balance_stability : ℚ
  failure_rate : ℚ
  counterparty_diversity : ℚ
  recent_activity : ℚ
deriving DecidableEq

/-- Python `int(q)`: truncation toward zero. -/
def pyInt (q : ℚ) : ℤ := if 0 ≤ q then ⌊q⌋ else ⌈q⌉

/-- The result dictionary of `WalletRiskScorer.calculate_risk_score`
(lines 182-191). -/
structure RiskAssessment where
  wallet_address : String
  risk_score : ℤ
  risk_category : String
  component_scores : ComponentScores
  weighted_score : ℚ
  transaction_metrics : TransactionMetrics
  compound_data : CompoundData
  balance_data : BalanceData
deriving DecidableEq

/-- The `RiskAssessment` assembled by `calculate_risk_score`
(src/risk_scorer.py lines 156-191) once the seven component scores are
available; `diversity` is the value of
`calculate_counterparty_diversity_score`, the only scorer that can raise. -/
def assemble_risk_assessment (wallet_address : String)
    (transaction_metrics : TransactionMetrics) (compound_data : CompoundData)
    (balance_data : BalanceData) (diversity : ℚ) : RiskAssessment :=
  let scores : ComponentScores :=
    { transaction_volume := calculate_transaction_volume_score transaction_metrics
      transaction_frequency := calculate_frequency_score transaction_metrics
      protocol_experience := calculate_protocol_experience_score compound_data
      balance_stability := calculate_balance_stability_score balance_data transaction_metrics
      failure_rate := calculate_failure_rate_score transaction_metrics
      counterparty_diversity := diversity
      recent_activity := calculate_recent_activity_score transaction_metrics }
  let weighted_score : ℚ :=
    scores.transaction_volume * weight_transaction_volume +
    scores.transaction_frequency * weight_transaction_frequency +
    scores.protocol_experience * weight_protocol_experience +
    scores.balance_stability * weight_balance_stability +
    scores.failure_rate * weight_failure_rate +
    scores.counterparty_diversity * weight_counterparty_diversity +
    scores.recent_activity * weight_recent_activity
  let risk_score : ℤ := pyInt (weighted_score * 1000)
  let risk_category : String :=
    if risk_score ≤ 200 then "Very Low Risk"
    else if risk_score ≤ 400 then "Low Risk"
    else if risk_score ≤ 600 then "Medium Risk"
    else if risk_score ≤ 800 then "High Risk"
    else "Very High Risk"
  { wallet_address := wallet_address
    risk_score := risk_score
    risk_category := risk_category
    component_scores := scores
    weighted_score := weighted_score
    transaction_metrics := transaction_metrics
    compound_data := compound_data
    balance_data := balance_data }

/-- `WalletRiskScorer.calculate_risk_score` (src/risk_scorer.py lines
153-191): the ZeroDivisionError raised while computing the (unused)
diversity ratio propagates; otherwise the assembled record is returned. -/
def calculate_risk_score (wallet_address : String)
    (transaction_metrics : TransactionMetrics) (compound_data : CompoundData)
    (balance_data : BalanceData) : Except String RiskAssessment :=
  match calculate_counterparty_diversity_score transaction_metrics with
  | Except.error e => Except.error e
  | Except.ok diversity =>
      Except.ok (assemble_risk_assessment wallet_address transaction_metrics
        compound_data balance_data diversity)

/-! Pipeline (src/main.py, class `WalletRiskAnalyzer`).  The three network
fetches are inputs of the embedding: each is an `Except String` value
mirroring the `{success, ... | error}` dictionaries of the Chain Data
Provider. -/

/-- The result dictionary a wallet contributes to the accumulated results:
either the full `RiskAssessment` (with no `error` key) or the error
placeholder of `_create_error_result` (empty metric/usage/balance
dictionaries, `error` populated). -/
structure ResultRecord where
  wallet_address : String
  risk_score : ℤ
  risk_category : String
  component_scores : Option ComponentScores
  weighted_score : Option ℚ
  transaction_metrics : TransactionMetrics
  compound_data : CompoundData
  balance_data : BalanceData
  error : Option String
deriving DecidableEq

/-- An empty metrics dictionary (the `{}` of `_create_error_result`). -/
def emptyMetrics : TransactionMetrics :=
  { total_transactions := none
    avg_transaction_value := none
    transaction_frequency := none
    failed_transactions := none
    failed_transaction_rate := none
    unique_counterparties := none
    time_span_days := none
    total_value_eth := none }

/-- `WalletRiskAnalyzer._create_error_result` (src/main.py lines 61-74). -/
def create_error_result (wallet_address : String) (error_message : String) :
    ResultRecord :=
  { wallet_address := wallet_address
    risk_score := 999
    risk_category := "Error - Unable to Assess"
    component_scores := none
    weighted_score := none
    transaction_metrics := emptyMetrics
    compound_data := { compound_count := none }
    balance_data := { current_balance_eth := none }
    error := some error_message }

/-- The per-wallet fetch outcomes handed to `process_wallet` by the Chain
Data Provider (`get_wallet_transactions`, `get_compound_interactions`,
`get_wallet_balance_history`): each is success with a payload or failure
with a message. -/
structure FetchOutcome where
  transactionFetch : Except String (List Tx)
  compoundFetch : Except String CompoundData
  balanceFetch : Except String BalanceData

/-- The non-fatal substitution for a failed protocol-usage fetch
(src/main.py lines 37-39): the neutral default `compound_count = 0`. -/
def compound_or_default : Except String CompoundData → CompoundData
  | Except.ok c => c
  | Except.error _ => { compound_count := some 0 }

/-- The non-fatal substitution for a failed balance fetch
(src/main.py lines 44-46): the neutral default `current_balance_eth = 0`. -/
def balance_or_default : Except String BalanceData → BalanceData
  | Except.ok b => b
  | Except.error _ => { current_balance_eth := some 0 }

/-- A successfully scored wallet contributes its `RiskAssessment` (a dictionary
with no `error` key) to the accumulated results. -/
def success_result (r : RiskAssessment) : ResultRecord :=
  { wallet_address := r.wallet_address
    risk_score := r.risk_score
    risk_category := r.risk_category
    component_scores := some r.component_scores
    weighted_score := some r.weighted_score
    transaction_metrics := r.transaction_metrics
    compound_data := r.compound_data
    balance_data := r.balance_data
    error := none }

/-- `WalletRiskAnalyzer.process_wallet` (src/main.py lines 17-59):
a failed transaction fetch yields the error placeholder with the prefixed
provider message; failed compound or balance fetches are replaced by neutral
defaults (`compound_count = 0`, `current_balance_eth = 0`); the scorer runs
inside `try`, so a ZeroDivisionError raised by it is converted to the error
placeholder carrying the exception message. -/
def process_wallet (wallet_address : String) (txFetch : Except String (List Tx))
    (compoundFetch : Except String CompoundData)
    (balanceFetch : Except String BalanceData) : ResultRecord :=
  match txFetch with
  | Except.error e =>
      create_error_result wallet_address ("Transaction fetch error: " ++ e)
  | Except.ok transactions =>
      match calculate_risk_score wallet_address
          (analyze_transaction_patterns transactions)
          (compound_or_default compoundFetch) (balance_or_default balanceFetch) with
      | Except.ok r => success_result r
      | Except.error e => create_error_result wallet_address e

/-- The per-wallet loop of `WalletRiskAnalyzer.process_wallet_list`
(src/main.py lines 88-107): each address of the input list, in order, is
processed with its fetch outcomes and contributes exactly one result record
(`process_wallet` is total: every exception path ends in
`create_error_result`). -/
def process_wallet_list (inputs : List (String × FetchOutcome)) :
    List ResultRecord :=
  inputs.map fun p =>
    process_wallet p.1 p.2.transactionFetch p.2.compoundFetch p.2.balanceFetch

/-- One row of the output table
(`WalletRiskAnalyzer._create_results_dataframe`); the wall-clock
`processed_at` column is outside the embedding. -/
structure Row where
  wallet_id : String
  risk_score : ℤ
  risk_category : String
  total_transactions : ℚ
  compound_interactions : ℚ
  current_balance_eth : ℚ
  transaction_volume_eth : ℚ
  transaction_frequency : ℚ
  failed_transaction_rate : ℚ
  unique_counterparties : ℚ
  error : String
deriving DecidableEq

/-- `WalletRiskAnalyzer._create_results_dataframe` (src/main.py lines
125-148): one output row per result record, missing keys defaulting to 0
and a missing error to the empty string. -/
def create_results_dataframe (results : List ResultRecord) : List Row :=
  results.map fun r =>
    { wallet_id := r.wallet_address
      risk_score := r.risk_score
      risk_category := r.risk_category
      total_transactions := r.transaction_metrics.total_transactions.getD 0
      compound_interactions := r.compound_data.compound_count.getD 0
      current_balance_eth := r.balance_data.current_balance_eth.getD 0
      transaction_volume_eth := r.transaction_metrics.total_value_eth.getD 0
      transaction_frequency := r.transaction_metrics.transaction_frequency.getD 0
      failed_transaction_rate := r.transaction_metrics.failed_transaction_rate.getD 0
      unique_counterparties := r.transaction_metrics.unique_counterparties.getD 0
      error := r.error.getD "" }

/-! Helper lemmas shared by the claims below. -/

/-- The volume factor score always lies between 0 and 0.9. -/
theorem volume_score_bounds (m : TransactionMetrics) :
    0 ≤ calculate_transaction_volume_score m ∧
      calculate_transaction_volume_score m ≤ 0.9 := by
  simp only [calculate_transaction_volume_score]
  split_ifs <;> norm_num

/-- The frequency factor score always lies between 0 and 1. -/
theorem frequency_score_bounds (m : TransactionMetrics) :
    0 ≤ calculate_frequency_score m ∧ calculate_frequency_score m ≤ 1 := by
  simp only [calculate_frequency_score]
  split_ifs <;> norm_num

/-- The protocol-experience factor score always lies between 0 and 0.95. -/
theorem protocol_score_bounds (c : CompoundData) :
    0 ≤ calculate_protocol_experience_score c ∧
      calculate_protocol_experience_score c ≤ 0.95 := by
  simp only [calculate_protocol_experience_score]
  split_ifs <;> norm_num

/-- The balance-stability factor score is clamped to [0, 1]. -/
theorem balance_score_bounds (b : BalanceData) (m : TransactionMetrics) :
    0 ≤ calculate_balance_stability_score b m ∧
      calculate_balance_stability_score b m ≤ 1 := by
  unfold calculate_balance_stability_score
  refine ⟨le_max_left _ _, ?_⟩
  exact max_le (by norm_num) (min_le_left _ _)

/-- The failure-rate factor score always lies between 0 and 1. -/
theorem failure_score_bounds (m : TransactionMetrics) :
    0 ≤ calculate_failure_rate_score m ∧ calculate_failure_rate_score m ≤ 1 := by
  simp only [calculate_failure_rate_score]
  split_ifs <;> norm_num

/-- When the diversity scorer returns (rather than raising), its value lies
between 0 and 1. -/
theorem diversity_score_bounds {m : TransactionMetrics} {s : ℚ}
    (h : calculate_counterparty_diversity_score m = Except.ok s) :
    0 ≤ s ∧ s ≤ 1 := by
  simp only [calculate_counterparty_diversity_score] at h
  split_ifs at h <;>
    first
      | exact Except.noConfusion h
      | (obtain rfl := Except.ok.inj h; norm_num)

/-- The recent-activity factor score always lies between 0 and 1. -/
theorem recency_score_bounds (m : TransactionMetrics) :
    0 ≤ calculate_recent_activity_score m ∧
      calculate_recent_activity_score m ≤ 1 := by
  simp only [calculate_recent_activity_score]
  split_ifs <;> norm_num

/-- Inversion for a successful `calculate_risk_score`: the diversity scorer
returned a value and the result is the assembled record. -/
theorem calculate_risk_score_ok {a : String} {m : TransactionMetrics}
    {c : CompoundData} {b : BalanceData} {r : RiskAssessment}
    (h : calculate_risk_score a m c b = Except.ok r) :
    ∃ d, calculate_counterparty_diversity_score m = Except.ok d ∧
      r = assemble_risk_assessment a m c b d := by
  unfold calculate_risk_score at h
  cases hd : calculate_counterparty_diversity_score m with
  | error e => rw [hd] at h; exact Except.noConfusion h
  | ok d => rw [hd] at h; exact ⟨d, rfl, (Except.ok.inj h).symm⟩

/-! Fixtures used by the concrete evaluations below. -/

/-- The §8 regression-fixture metrics dictionary. -/
def fixtureMetrics : TransactionMetrics :=
  { total_transactions := some 20
    avg_transaction_value := none
    transaction_frequency := some 0.05
    failed_transactions := none
    failed_transaction_rate := some 0
    unique_counterparties := some 3
    time_span_days := some 10
    total_value_eth := some 5 }

/-- The assessment the engine produces on the regression fixture. -/
def fixtureAssessment : RiskAssessment :=
  { wallet_address := "0xfixture"
    risk_score := 682
    risk_category := "High Risk"
    component_scores :=
      { transaction_volume := 0.6
        transaction_frequency := 0.7
        protocol_experience := 0.95
        balance_stability := 0.9
        failure_rate := 0
        counterparty_diversity := 0.8
        recent_activity := 0.1 }
    weighted_score := 0.6825
    transaction_metrics := fixtureMetrics
    compound_data := { compound_count := some 0 }
    balance_data := { current_balance_eth := some 0.05 } }

/-- Evaluation of the engine on the regression fixture. -/
theorem fixture_eval :
    calculate_risk_score "0xfixture" fixtureMetrics { compound_count := some 0 }
      { current_balance_eth := some 0.05 } = Except.ok fixtureAssessment := by
  norm_num [calculate_risk_score, calculate_counterparty_diversity_score,
    assemble_risk_assessment, calculate_transaction_volume_score,
    calculate_frequency_score, calculate_protocol_experience_score,
    calculate_balance_stability_score, calculate_failure_rate_score,
    calculate_recent_activity_score, fixtureMetrics, fixtureAssessment, pyInt,
    weight_transaction_volume, weight_transaction_frequency,
    weight_protocol_experience, weight_balance_stability, weight_failure_rate,
    weight_counterparty_diversity, weight_recent_activity]

/-- A transaction with a single parseable timestamp. -/
def singleTx : Tx :=
  { value := some 0
    isError := none
    toAddr := some "0xb"
    fromAddr := some "0xc"
    timeStamp := some 1700000000 }

/-! Claims. -/

/-- Claim C1.  The spec asserts `calculate_risk_score` raises no exception for
any well-formed numeric input, in particular for metrics with
`total_transactions = 0` as produced by the normalizer for an empty
transaction list.  The code violates this: the unused `diversity_ratio`
computation in `calculate_counterparty_diversity_score` divides by the
present-and-zero `total_transactions` key (the `dict.get` default of 1
guards only a missing key), raising ZeroDivisionError.  This theorem
evaluates the code at the failing input. -/
theorem C1_zero_transactions_divzero :
    (analyze_transaction_patterns []).total_transactions = some 0 ∧
    calculate_risk_score "0xempty" (analyze_transaction_patterns [])
        { compound_count := some 0 } { current_balance_eth := some 0 } =
      Except.error "division by zero" := by
  constructor
  · rfl
  · norm_num [calculate_risk_score, calculate_counterparty_diversity_score,
      analyze_transaction_patterns]

/-- Claim C2, amended.  For the empty transaction list the normalizer returns
a record whose six present fields are all zero, but the keys
`failed_transaction_rate` and `total_value_eth` are absent (the empty-input
branch of the source omits them); no division failure occurs. -/
theorem C2_empty_list_metrics :
    analyze_transaction_patterns [] =
      { total_transactions := some 0
        avg_transaction_value := some 0
        transaction_frequency := some 0
        failed_transactions := some 0
        failed_transaction_rate := none
        unique_counterparties := some 0
        time_span_days := some 0
        total_value_eth := none } := rfl

/-- Claim C2, counterexample to the original statement: for the empty
transaction list the fields `failed_transaction_rate` and `total_value_eth`
are not present (hence not present-and-zero as claimed). -/
theorem C2_counterexample :
    ¬((analyze_transaction_patterns []).failed_transaction_rate = some 0 ∧
      (analyze_transaction_patterns []).total_value_eth = some 0) := by
  simp [analyze_transaction_patterns]

/-- Claim C7.  On the fixed regression fixture (metrics: total_value_eth 5,
transaction_frequency 0.05, unique_counterparties 3, total_transactions 20,
failed_transaction_rate 0, time_span_days 10; compound_count 0;
current_balance_eth 0.05) the engine produces factor scores 0.6, 0.7, 0.95,
0.9 (base 0.9, adjustment 0 at ratio exactly 0.01), 0.0, 0.8, 0.1, weighted
score 0.6825, risk score 682 and category High Risk. -/
theorem C7_regression_fixture :
    calculate_risk_score "0xfixture" fixtureMetrics { compound_count := some 0 }
        { current_balance_eth := some 0.05 } = Except.ok fixtureAssessment ∧
    fixtureAssessment.component_scores =
      { transaction_volume := 0.6
        transaction_frequency := 0.7
        protocol_experience := 0.95
        balance_stability := 0.9
        failure_rate := 0
        counterparty_diversity := 0.8
        recent_activity := 0.1 } ∧
    fixtureAssessment.weighted_score = 0.6825 ∧
    fixtureAssessment.risk_score = 682 ∧
    fixtureAssessment.risk_category = "High Risk" :=
  ⟨fixture_eval, rfl, rfl, rfl, rfl⟩

/-- The weighted score of an assembled record lies between 0 and 0.9675
(the maximum reachable value: 0.9, 1, 0.95, 1, 1, 1, 1 against the weights). -/
theorem assemble_weighted_bounds (a : String) (m : TransactionMetrics)
    (c : CompoundData) (b : BalanceData) {d : ℚ} (hd0 : 0 ≤ d) (hd1 : d ≤ 1) :
    0 ≤ (assemble_risk_assessment a m c b d).weighted_score ∧
      (assemble_risk_assessment a m c b d).weighted_score ≤ 0.9675 := by
  obtain ⟨hv0, hv1⟩ := volume_score_bounds m
  obtain ⟨hf0, hf1⟩ := frequency_score_bounds m
  obtain ⟨hp0, hp1⟩ := protocol_score_bounds c
  obtain ⟨hb0, hb1⟩ := balance_score_bounds b m
  obtain ⟨he0, he1⟩ := failure_score_bounds m
  obtain ⟨hr0, hr1⟩ := recency_score_bounds m
  simp only [assemble_risk_assessment, weight_transaction_volume,
    weight_transaction_frequency, weight_protocol_experience,
    weight_balance_stability, weight_failure_rate, weight_counterparty_diversity,
    weight_recent_activity]
  constructor <;> linarith

/-- The integer risk score of an assembled record lies between 0 and 967. -/
theorem assemble_risk_score_bounds (a : String) (m : TransactionMetrics)
    (c : CompoundData) (b : BalanceData) {d : ℚ} (hd0 : 0 ≤ d) (hd1 : d ≤ 1) :
    0 ≤ (assemble_risk_assessment a m c b d).risk_score ∧
      (assemble_risk_assessment a m c b d).risk_score ≤ 967 := by
  obtain ⟨hW0, hW1⟩ := assemble_weighted_bounds a m c b hd0 hd1
  have hrs : (assemble_risk_assessment a m c b d).risk_score =
      pyInt ((assemble_risk_assessment a m c b d).weighted_score * 1000) := rfl
  rw [hrs]
  simp only [pyInt]
  rw [if_pos (by linarith)]
  constructor
  · exact Int.le_floor.mpr (by push_cast; linarith)
  · calc ⌊(assemble_risk_assessment a m c b d).weighted_score * 1000⌋
        ≤ ⌊(967.5 : ℚ)⌋ := Int.floor_le_floor (by linarith)
      _ = 967 := by norm_num

/-- Claim C3.  Whenever `calculate_risk_score` returns, each of the seven
factor scores lies in [0, 1], the seven factor weights sum to 1, the weighted
score lies in [0, 1] and the integer risk score lies in [0, 1000]. -/
theorem C3_score_bounds (a : String) (m : TransactionMetrics) (c : CompoundData)
    (b : BalanceData) (r : RiskAssessment)
    (h : calculate_risk_score a m c b = Except.ok r) :
    (0 ≤ r.component_scores.transaction_volume ∧
        r.component_scores.transaction_volume ≤ 1) ∧
    (0 ≤ r.component_scores.transaction_frequency ∧
        r.component_scores.transaction_frequency ≤ 1) ∧
    (0 ≤ r.component_scores.protocol_experience ∧
        r.component_scores.protocol_experience ≤ 1) ∧
    (0 ≤ r.component_scores.balance_stability ∧
        r.component_scores.balance_stability ≤ 1) ∧
    (0 ≤ r.component_scores.failure_rate ∧ r.component_scores.failure_rate ≤ 1) ∧
    (0 ≤ r.component_scores.counterparty_diversity ∧
        r.component_scores.counterparty_diversity ≤ 1) ∧
    (0 ≤ r.component_scores.recent_activity ∧
        r.component_scores.recent_activity ≤ 1) ∧
    weight_transaction_volume + weight_transaction_frequency +
        weight_protocol_experience + weight_balance_stability +
        weight_failure_rate + weight_counterparty_diversity +
        weight_recent_activity = 1 ∧
    (0 ≤ r.weighted_score ∧ r.weighted_score ≤ 1) ∧
    (0 ≤ r.risk_score ∧ r.risk_score ≤ 1000) := by
  obtain ⟨d, hd, rfl⟩ := calculate_risk_score_ok h
  obtain ⟨hd0, hd1⟩ := diversity_score_bounds hd
  obtain ⟨hW0, hW1⟩ := assemble_weighted_bounds a m c b hd0 hd1
  obtain ⟨hR0, hR1⟩ := assemble_risk_score_bounds a m c b hd0 hd1
  obtain ⟨hv0, hv1⟩ := volume_score_bounds m
  obtain ⟨hf0, hf1⟩ := frequency_score_bounds m
  obtain ⟨hp0, hp1⟩ := protocol_score_bounds c
  obtain ⟨hb0, hb1⟩ := balance_score_bounds b m
  obtain ⟨he0, he1⟩ := failure_score_bounds m
  obtain ⟨hr0, hr1⟩ := recency_score_bounds m
  exact ⟨⟨hv0, hv1.trans (by norm_num)⟩, ⟨hf0, hf1⟩,
    ⟨hp0, hp1.trans (by norm_num)⟩, ⟨hb0, hb1⟩, ⟨he0, he1⟩, ⟨hd0, hd1⟩,
    ⟨hr0, hr1⟩,
    by norm_num [weight_transaction_volume, weight_transaction_frequency,
      weight_protocol_experience, weight_balance_stability, weight_failure_rate,
      weight_counterparty_diversity, weight_recent_activity],
    ⟨hW0, hW1.trans (by norm_num)⟩, ⟨hR0, by omega⟩⟩

/-- Witness for C3: the bounds instantiated on the regression fixture. -/
theorem C3_witness :
    (0 ≤ fixtureAssessment.weighted_score ∧ fixtureAssessment.weighted_score ≤ 1) ∧
    (0 ≤ fixtureAssessment.risk_score ∧ fixtureAssessment.risk_score ≤ 1000) :=
  ⟨(C3_score_bounds "0xfixture" fixtureMetrics { compound_count := some 0 }
      { current_balance_eth := some 0.05 } fixtureAssessment
      fixture_eval).2.2.2.2.2.2.2.2.1,
   (C3_score_bounds "0xfixture" fixtureMetrics { compound_count := some 0 }
      { current_balance_eth := some 0.05 } fixtureAssessment
      fixture_eval).2.2.2.2.2.2.2.2.2⟩

/-- Claim C4.  Whenever `calculate_risk_score` returns, the integer risk score
is the weighted score times 1000 truncated toward zero, and the category is
the monotone step function of the risk score with inclusive upper bounds 200,
400, 600 and 800 (so 200/201, 400/401, 600/601 and 800/801 fall on opposite
sides of the four boundaries). -/
theorem C4_truncation_and_category (a : String) (m : TransactionMetrics)
    (c : CompoundData) (b : BalanceData) (r : RiskAssessment)
    (h : calculate_risk_score a m c b = Except.ok r) :
    r.risk_score = pyInt (r.weighted_score * 1000) ∧
    (r.risk_score ≤ 200 → r.risk_category = "Very Low Risk") ∧
    (200 < r.risk_score → r.risk_score ≤ 400 → r.risk_category = "Low Risk") ∧
    (400 < r.risk_score → r.risk_score ≤ 600 → r.risk_category = "Medium Risk") ∧
    (600 < r.risk_score → r.risk_score ≤ 800 → r.risk_category = "High Risk") ∧
    (800 < r.risk_score → r.risk_category = "Very High Risk") := by
  obtain ⟨d, hd, rfl⟩ := calculate_risk_score_ok h
  refine ⟨rfl, ?_, ?_, ?_, ?_, ?_⟩ <;>
    (simp only [assemble_risk_assessment]
     intros
     split_ifs <;> first | rfl | omega)

/-- Witness for C4: on the regression fixture the score is the truncation and
the category of score 682 is High Risk. -/
theorem C4_witness :
    fixtureAssessment.risk_score = pyInt (fixtureAssessment.weighted_score * 1000) ∧
    fixtureAssessment.risk_category = "High Risk" :=
  ⟨(C4_truncation_and_category "0xfixture" fixtureMetrics
      { compound_count := some 0 } { current_balance_eth := some 0.05 }
      fixtureAssessment fixture_eval).1,
   (C4_truncation_and_category "0xfixture" fixtureMetrics
      { compound_count := some 0 } { current_balance_eth := some 0.05 }
      fixtureAssessment fixture_eval).2.2.2.2.1 (by decide) (by decide)⟩

/-- Claim C5.  The spec asserts that only a failed transaction-list fetch
yields the fixed 999 `Failed` result, while failed protocol-usage or balance
fetches are substituted by neutral defaults and still give a normal scored
result.  The routing of fetch failures is as described (first four
conjuncts), but the final conjunct evaluates the code at a wallet whose
transaction fetch succeeds with the empty list while both auxiliary fetches
fail: the ZeroDivisionError slip of the diversity scorer (see C1) turns this
into the 999 `Failed` result instead of a normal scored result. -/
theorem C5_failure_routing :
    process_wallet "0xa" (Except.error "timeout")
        (Except.ok { compound_count := some 3 })
        (Except.ok { current_balance_eth := some 1 }) =
      create_error_result "0xa" ("Transaction fetch error: " ++ "timeout") ∧
    (create_error_result "0xa" ("Transaction fetch error: " ++ "timeout")).risk_score
      = 999 ∧
    (create_error_result "0xa" ("Transaction fetch error: " ++ "timeout")).risk_category
      = "Error - Unable to Assess" ∧
    (create_error_result "0xa" ("Transaction fetch error: " ++ "timeout")).transaction_metrics
      = emptyMetrics ∧
    (create_error_result "0xa" ("Transaction fetch error: " ++ "timeout")).component_scores
      = none ∧
    process_wallet "0xempty" (Except.ok []) (Except.error "rate limited")
        (Except.error "no node") = create_error_result "0xempty" "division by zero" := by
  refine ⟨rfl, rfl, rfl, rfl, rfl, ?_⟩
  norm_num [process_wallet, compound_or_default, balance_or_default,
    calculate_risk_score, calculate_counterparty_diversity_score,
    analyze_transaction_patterns]

/-- Each per-wallet result carries the address it was produced for. -/
theorem process_wallet_address (a : String) (t : Except String (List Tx))
    (c : Except String CompoundData) (b : Except String BalanceData) :
    (process_wallet a t c b).wallet_address = a := by
  cases t with
  | error e => rfl
  | ok txs =>
    simp only [process_wallet]
    cases hc : calculate_risk_score a (analyze_transaction_patterns txs)
        (compound_or_default c) (balance_or_default b) with
    | error e => rfl
    | ok r =>
      obtain ⟨d, hd, rfl⟩ := calculate_risk_score_ok hc
      rfl

/-- Claim C6.  For every input wallet list (each address paired with the
outcomes of its three fetches), the batch loop produces exactly one result
record per address — `process_wallet` is total, every exception path ending
in the error placeholder — and the final output table has exactly one row per
input address, carrying the addresses in input order. -/
theorem C6_one_row_per_wallet (inputs : List (String × FetchOutcome)) :
    (create_results_dataframe (process_wallet_list inputs)).length = inputs.length ∧
    (create_results_dataframe (process_wallet_list inputs)).map Row.wallet_id =
      inputs.map Prod.fst := by
  constructor
  · simp [create_results_dataframe, process_wallet_list]
  · simp only [create_results_dataframe, process_wallet_list, List.map_map]
    exact List.map_congr_left fun p _ => process_wallet_address p.1 _ _ _

set_option maxHeartbeats 1000000 in
/-- Claim C9.  The volume factor score is non-strictly decreasing in
`total_value_eth`, the protocol-experience score in `compound_count`, and the
diversity score in `unique_counterparties` (stated for any two inputs whose
read value is ordered, which subsumes holding all other inputs fixed). -/
theorem C9_factor_monotonicity :
    (∀ m mg : TransactionMetrics,
        m.total_value_eth.getD 0 ≤ mg.total_value_eth.getD 0 →
        calculate_transaction_volume_score mg ≤
          calculate_transaction_volume_score m) ∧
    (∀ c cg : CompoundData,
        c.compound_count.getD 0 ≤ cg.compound_count.getD 0 →
        calculate_protocol_experience_score cg ≤
          calculate_protocol_experience_score c) ∧
    (∀ (m mg : TransactionMetrics) (s sg : ℚ),
        m.unique_counterparties.getD 0 ≤ mg.unique_counterparties.getD 0 →
        calculate_counterparty_diversity_score m = Except.ok s →
        calculate_counterparty_diversity_score mg = Except.ok sg →
        sg ≤ s) := by
  refine ⟨?_, ?_, ?_⟩
  · intro m mg h
    simp only [calculate_transaction_volume_score]
    split_ifs <;> linarith
  · intro c cg h
    simp only [calculate_protocol_experience_score]
    split_ifs <;> linarith
  · intro m mg s sg h hs hsg
    simp only [calculate_counterparty_diversity_score] at hs hsg
    by_cases ht : m.total_transactions.getD 1 = 0
    · rw [if_pos ht] at hs
      exact Except.noConfusion hs
    rw [if_neg ht] at hs
    by_cases htg : mg.total_transactions.getD 1 = 0
    · rw [if_pos htg] at hsg
      exact Except.noConfusion hsg
    rw [if_neg htg] at hsg
    obtain rfl := Except.ok.inj hs
    obtain rfl := Except.ok.inj hsg
    split_ifs <;> linarith

/-- A high-volume variant of the fixture metrics. -/
def highVolumeMetrics : TransactionMetrics :=
  { fixtureMetrics with total_value_eth := some 1000 }

/-- A more diverse variant of the fixture metrics. -/
def diverseMetrics : TransactionMetrics :=
  { fixtureMetrics with unique_counterparties := some 15 }

/-- Witness for C9: the three monotonicity statements instantiated at
concrete metric pairs. -/
theorem C9_witness :
    calculate_transaction_volume_score highVolumeMetrics ≤
        calculate_transaction_volume_score fixtureMetrics ∧
    calculate_protocol_experience_score { compound_count := some 60 } ≤
        calculate_protocol_experience_score { compound_count := some 0 } ∧
    (0.5 : ℚ) ≤ 0.8 :=
  ⟨C9_factor_monotonicity.1 fixtureMetrics highVolumeMetrics (by decide),
   C9_factor_monotonicity.2.1 { compound_count := some 0 }
     { compound_count := some 60 } (by decide),
   C9_factor_monotonicity.2.2 fixtureMetrics diverseMetrics 0.8 0.5
     (by decide) rfl rfl⟩

/-- Claim C10.  Whenever the engine returns, the weighted score is at most
0.9675 and the risk score at most 967; consequently a result record of the
pipeline has risk score 999 exactly when it is the error placeholder (its
`error` field is populated), so error rows are distinguishable by risk score
alone. -/
theorem C10_success_scores_bounded :
    (∀ (a : String) (m : TransactionMetrics) (c : CompoundData)
        (b : BalanceData) (r : RiskAssessment),
        calculate_risk_score a m c b = Except.ok r →
        r.weighted_score ≤ 0.9675 ∧ r.risk_score ≤ 967) ∧
    (∀ (a : String) (t : Except String (List Tx))
        (c : Except String CompoundData) (b : Except String BalanceData),
        (process_wallet a t c b).risk_score = 999 ↔
          (process_wallet a t c b).error ≠ none) := by
  have key : ∀ (a : String) (m : TransactionMetrics) (c : CompoundData)
      (b : BalanceData) (r : RiskAssessment),
      calculate_risk_score a m c b = Except.ok r →
      r.weighted_score ≤ 0.9675 ∧ r.risk_score ≤ 967 := by
    intro a m c b r h
    obtain ⟨d, hd, rfl⟩ := calculate_risk_score_ok h
    obtain ⟨hd0, hd1⟩ := diversity_score_bounds hd
    exact ⟨(assemble_weighted_bounds a m c b hd0 hd1).2,
      (assemble_risk_score_bounds a m c b hd0 hd1).2⟩
  refine ⟨key, ?_⟩
  intro a t c b
  cases t with
  | error e => simp [process_wallet, create_error_result]
  | ok txs =>
    simp only [process_wallet]
    cases hc : calculate_risk_score a (analyze_transaction_patterns txs)
        (compound_or_default c) (balance_or_default b) with
    | error e => simp [create_error_result]
    | ok r =>
      have h967 := (key a _ _ _ r hc).2
      simp only [success_result, ne_eq, not_true_eq_false, iff_false]
      omega

/-- Witness for C10: the bound instantiated on the regression fixture. -/
theorem C10_witness :
    fixtureAssessment.weighted_score ≤ 0.9675 ∧
      fixtureAssessment.risk_score ≤ 967 :=
  C10_success_scores_bounded.1 "0xfixture" fixtureMetrics
    { compound_count := some 0 } { current_balance_eth := some 0.05 }
    fixtureAssessment fixture_eval

/-- Claim C8, amended.  For every non-empty transaction list with at least
one parseable timestamp whose observed time span is at most 1 day, the
frequency divisor `max(time_span, 1)` collapses to 1, so the normalizer
reports `transaction_frequency` equal to the number of transactions — not 0
as the original claim states. -/
theorem C8_clamped_span_frequency (txs : List Tx) (s : ℚ) (hne : txs ≠ [])
    (hts : txs.filterMap (fun tx => tx.timeStamp) ≠ [])
    (hspan : (analyze_transaction_patterns txs).time_span_days = some s)
    (hle : s ≤ 1) :
    (analyze_transaction_patterns txs).transaction_frequency =
      some (txs.length : ℚ) := by
  cases txs with
  | nil => exact absurd rfl hne
  | cons tx rest =>
    simp only [analyze_transaction_patterns, List.isEmpty_cons,
      Bool.false_eq_true, if_false] at hspan ⊢
    cases hm : List.filterMap (fun tx => tx.timeStamp) (tx :: rest) with
    | nil => exact absurd hm hts
    | cons t ts =>
      simp only [hm] at hspan ⊢
      rw [Option.some.injEq] at hspan
      subst hspan
      rw [max_eq_right hle, div_one]

/-- Claim C8, counterexample to the original statement: a single transaction
with one parseable timestamp has time span 0 (at most 1 day), yet its
transaction frequency is 1, not 0. -/
theorem C8_counterexample :
    (analyze_transaction_patterns [singleTx]).time_span_days = some 0 ∧
    (analyze_transaction_patterns [singleTx]).transaction_frequency = some 1 ∧
    (analyze_transaction_patterns [singleTx]).transaction_frequency ≠ some 0 := by
  refine ⟨?_, ?_, ?_⟩ <;>
    norm_num [analyze_transaction_patterns, singleTx, List.filterMap]

/-- Witness for C8: the amended claim instantiated on the one-transaction
list with time span 0. -/
theorem C8_witness :
    (analyze_transaction_patterns [singleTx]).time_span_days = some 0 ∧
    (analyze_transaction_patterns [singleTx]).transaction_frequency = some 1 :=
  ⟨by simp [analyze_transaction_patterns, singleTx],
   by simpa using
     C8_clamped_span_frequency [singleTx] 0 (by simp) (by simp [singleTx])
       (by simp [analyze_transaction_patterns, singleTx]) (by decide)⟩

end WalletScores
